import Mathlib

/-!
Shallow embedding of the tax2go-search core (multi-tenant full-text search
service over Tantivy) and verification of its specification claims.

Modelling conventions:
* A Tantivy stored document maps each schema field to the list of values that
  were added under it, in insertion order; `get_first` is `List.head?`.
* The Tantivy engine (segments, postings, scoring) is a black box per spec
  §4.2: query execution is a parameter returning the ranked match list, with
  `TopDocs::with_limit(k)` modelled as `List.take k` of that ranked list.
* Nondeterministic effects (`Uuid::new_v4()`, `Utc::now()`) are passed as
  explicit arguments, mirroring each call site in the source separately.
* Scores are `f32` values passed through unchanged from the engine to the
  response; they are carried as an abstract type parameter.
* A per-tenant index state carries the committed document list (deletes
  already applied, as Tantivy's `num_docs`/search do after commit), the
  reader-visible snapshot (updated by `reader.reload()`), and the count of
  commits issued.
-/

namespace Tax2go

/-- A stored Tantivy document under the six-field schema of schema.rs:
each field holds the list of values added to it, in order. -/
structure TantivyDoc where
  id : List String
  title : List String
  body : List String
  created_at : List String
  tags : List String
  source : List String
deriving Repr, DecidableEq

/-- search/models.rs `DocumentMetadata`. `DateTime<Utc>` values are carried
as their RFC-3339 serialization; `custom` is the flattened extra map,
accepted and ignored by the core. -/
structure DocumentMetadata where
  tags : List String
  source : Option String
  created_at : Option String
  custom : List (String × String)
deriving Repr, DecidableEq

/-- search/models.rs `IndexDocumentInput`. -/
structure IndexDocumentInput where
  id : Option String
  title : String
  body : String
  metadata : DocumentMetadata
deriving Repr, DecidableEq

/-- search/models.rs `IndexDocumentResponse`. -/
structure IndexDocumentResponse where
  id : String
  status : String
  message : String
deriving Repr, DecidableEq

/-- search/models.rs `DeleteDocumentResponse`. -/
structure DeleteDocumentResponse where
  id : String
  status : String
  message : String
deriving Repr, DecidableEq

/-- search/models.rs `SearchFilters`; `Default` derives to empty tags and
no source. -/
structure SearchFilters where
  tags : List String
  source : Option String
deriving Repr, DecidableEq

/-- search/models.rs `SearchQuery` (after deserialization). -/
structure SearchQuery where
  query : String
  limit : Nat
  offset : Nat
  filters : SearchFilters
deriving Repr, DecidableEq

/-- search/models.rs `BrowseDocumentsQuery` (after deserialization). -/
structure BrowseDocumentsQuery where
  limit : Nat
  offset : Nat
deriving Repr, DecidableEq

/-- search/models.rs `SearchResult`. `score` is the engine-provided `f32`
passed through unchanged by index_manager.rs:265; it is carried with the
abstract score type `σ`. -/
structure SearchResult (σ : Type) where
  id : String
  title : String
  body : String
  score : σ
  created_at : Option String
  snippet : Option String
deriving Repr, DecidableEq

/-- search/models.rs `SearchResponse`. `took_ms` is wall-clock time, outside
the embedding, so it is not carried. -/
structure SearchResponse (σ : Type) where
  results : List (SearchResult σ)
  total : Nat
  query : String
deriving Repr, DecidableEq

/-- search/models.rs `DocumentDetail` (browse projection; no score). -/
structure DocumentDetail where
  id : String
  title : String
  body : String
  created_at : Option String
  tags : List String
deriving Repr, DecidableEq

/-- search/models.rs `BrowseDocumentsResponse` (without wall-clock `took_ms`). -/
structure BrowseDocumentsResponse where
  documents : List DocumentDetail
  total : Nat
deriving Repr, DecidableEq

/-- index_manager.rs `UserIndexStats`. -/
structure UserIndexStats where
  user_id : String
  num_documents : Nat
deriving Repr, DecidableEq

/-- schema.rs `doc_from_input`: build the stored document from the input.
`freshUuid` is the value minted by `Uuid::new_v4().to_string()` at
schema.rs:80, `nowRfc3339` the serialization of `Utc::now()` at schema.rs:89;
both are used only when the corresponding input field is absent. -/
def doc_from_input (input : IndexDocumentInput) (freshUuid : String)
    (nowRfc3339 : String) : TantivyDoc :=
  { id := [input.id.getD freshUuid]
  , title := [input.title]
  , body := [input.body]
  , created_at := [input.metadata.created_at.getD nowRfc3339]
  , tags := input.metadata.tags
  , source := (input.metadata.source.map (fun s => [s])).getD [] }

/-- Per-tenant index state: committed documents (live, deletes applied),
the reader-visible snapshot, and the number of commits issued. -/
structure IndexState where
  committed : List TantivyDoc
  readerDocs : List TantivyDoc
  commits : Nat
deriving Repr, DecidableEq

/-- State of a freshly created index (Index::create_in_dir on an empty
directory: no documents). -/
def emptyIndexState : IndexState :=
  { committed := [], readerDocs := [], commits := 0 }

/-- writer.delete_term on the non-tokenized `id` field: removes every live
document carrying the exact term `d` under `id`. -/
def deleteTerm (docs : List TantivyDoc) (d : String) : List TantivyDoc :=
  docs.filter (fun doc => ¬ d ∈ doc.id)

/-- index_manager.rs `index_document` (core of the upsert): build the
document from the input, resolve `doc_id` (index_manager.rs:132 mints a
fresh UUID — `respUuid` — independently of the `docUuid` minted inside
`doc_from_input` at schema.rs:80), delete-by-term on `id`, add the document,
commit, and answer with `doc_id`. -/
def index_document (s : IndexState) (input : IndexDocumentInput)
    (docUuid respUuid nowRfc3339 : String) :
    IndexState × IndexDocumentResponse :=
  let doc := doc_from_input input docUuid nowRfc3339
  let doc_id := input.id.getD respUuid
  let afterDelete := deleteTerm s.committed doc_id
  ({ committed := afterDelete ++ [doc]
   , readerDocs := s.readerDocs
   , commits := s.commits + 1 },
   { id := doc_id
   , status := "success"
   , message := "Document indexed successfully" })

/-- index_manager.rs `delete_document`: delete-by-term on `id`, then commit
(issued even when nothing matched), and echo the id with status success. -/
def delete_document (s : IndexState) (document_id : String) :
    IndexState × DeleteDocumentResponse :=
  ({ committed := deleteTerm s.committed document_id
   , readerDocs := s.readerDocs
   , commits := s.commits + 1 },
   { id := document_id
   , status := "success"
   , message := "Document deleted successfully" })

/-- reader.reload(): the reader-visible snapshot becomes the committed
segment contents. -/
def reloadReader (s : IndexState) : IndexState :=
  { s with readerDocs := s.committed }

/-- Result shaping shared by the search loop (index_manager.rs:238-268):
project `id` (missing → "unknown"), `title` and `body` (missing → ""),
`created_at` (missing → none), pass the score through, `snippet` none. -/
def projectSearchHit {σ : Type} (score : σ) (doc : TantivyDoc) :
    SearchResult σ :=
  { id := doc.id.head?.getD "unknown"
  , title := doc.title.head?.getD ""
  , body := doc.body.head?.getD ""
  , score := score
  , created_at := doc.created_at.head?
  , snippet := none }

/-- Result shaping of the browse loop (index_manager.rs:344-383): same
defaults as search, plus the multi-valued `tags` projection, no score. -/
def projectBrowseHit (doc : TantivyDoc) : DocumentDetail :=
  { id := doc.id.head?.getD "unknown"
  , title := doc.title.head?.getD ""
  , body := doc.body.head?.getD ""
  , created_at := doc.created_at.head?
  , tags := doc.tags }

/-- Black-box query execution (spec §4.2): given the reader-visible
documents and the query string, an engine returns the full score-descending
ranked list of (score, document) matches; `TopDocs::with_limit(k)` keeps the
first `k` of it. -/
def Engine (σ : Type) : Type :=
  List TantivyDoc → String → List (σ × TantivyDoc)

/-- index_manager.rs `search`: reload the reader, parse the query over
title+body (parsing and matching live inside the engine black box), collect
the top `limit + offset` hits with `limit` capped at 100
(index_manager.rs:226), skip `offset`, take `limit`, project the stored
fields, and set `total` to the number of returned results. -/
def search {σ : Type} (engine : Engine σ) (s : IndexState)
    (query : SearchQuery) : IndexState × SearchResponse σ :=
  let s' := reloadReader s
  let limit := min query.limit 100
  let offset := query.offset
  let top_docs := (engine s'.readerDocs query.query).take (limit + offset)
  let results :=
    ((top_docs.drop offset).take limit).map
      (fun h => projectSearchHit h.1 h.2)
  (s', { results := results, total := results.length, query := query.query })

/-- index_manager.rs `get_user_stats`: reload the reader and report
`searcher.num_docs()` (live documents, deletes excluded after commit). -/
def get_user_stats (s : IndexState) (user_id : String) :
    IndexState × UserIndexStats :=
  let s' := reloadReader s
  (s', { user_id := user_id, num_documents := s'.readerDocs.length })

/-- index_manager.rs `browse_documents`: reload the reader, run the
match-all query (every reader-visible document, in the engine's stable
internal-docid order, modelled as insertion order), collect the top
`limit + offset` with `limit` capped at 1000, skip `offset`, take `limit`,
project including tags, and set `total` to the returned count. -/
def browse_documents (s : IndexState) (query : BrowseDocumentsQuery) :
    IndexState × BrowseDocumentsResponse :=
  let s' := reloadReader s
  let limit := min query.limit 1000
  let offset := query.offset
  let top_docs := s'.readerDocs.take (limit + offset)
  let documents := ((top_docs.drop offset).take limit).map projectBrowseHit
  (s', { documents := documents, total := documents.length })

/-- Registry (index_manager.rs `IndexManager.indexes`): tenant UUID →
per-tenant index state; absent tenants read as a freshly created empty
index (lazy `get_or_create_index`). -/
def Manager : Type :=
  String → IndexState

/-- Manager with no tenant seen yet (every tenant lazily opens empty). -/
def emptyManager : Manager :=
  fun _ => emptyIndexState

/-- Tenant-level upsert: apply `index_document` to the tenant's own index,
leaving every other tenant's index untouched. -/
def mgrIndexDocument (m : Manager) (t : String) (input : IndexDocumentInput)
    (docUuid respUuid nowRfc3339 : String) :
    Manager × IndexDocumentResponse :=
  let r := index_document (m t) input docUuid respUuid nowRfc3339
  (fun t' => if t' = t then r.1 else m t', r.2)

/-- Tenant-level delete. -/
def mgrDeleteDocument (m : Manager) (t : String) (document_id : String) :
    Manager × DeleteDocumentResponse :=
  let r := delete_document (m t) document_id
  (fun t' => if t' = t then r.1 else m t', r.2)

/-- Tenant-level search. -/
def mgrSearch {σ : Type} (engine : Engine σ) (m : Manager) (t : String)
    (query : SearchQuery) : Manager × SearchResponse σ :=
  let r := search engine (m t) query
  (fun t' => if t' = t then r.1 else m t', r.2)

/-- Tenant-level browse. -/
def mgrBrowseDocuments (m : Manager) (t : String)
    (query : BrowseDocumentsQuery) : Manager × BrowseDocumentsResponse :=
  let r := browse_documents (m t) query
  (fun t' => if t' = t then r.1 else m t', r.2)

/-- Tenant-level stats. -/
def mgrGetUserStats (m : Manager) (t : String) :
    Manager × UserIndexStats :=
  let r := get_user_stats (m t) t
  (fun t' => if t' = t then r.1 else m t', r.2)

/-- Rust `str::trim`: strip leading and trailing whitespace characters.
(Rust uses the Unicode White_Space property; the claims only exercise the
common ASCII whitespace that `Char.isWhitespace` covers.) -/
def rustTrim (s : String) : String :=
  String.mk
    (((s.data.dropWhile Char.isWhitespace).reverse.dropWhile
        Char.isWhitespace).reverse)

/-- http/error.rs `AppError`. -/
inductive AppError where
  | Internal : String → AppError
  | BadRequest : String → AppError
  | NotFound : String → AppError
  | Validation : String → AppError
  | Search : String → AppError
  | Index : String → AppError
deriving Repr, DecidableEq

/-- http/error.rs `ErrorResponse` body: machine kind, human message,
optional details. -/
structure ErrorResponse where
  error : String
  message : String
  details : Option String
deriving Repr, DecidableEq

/-- http/error.rs `IntoResponse for AppError`: the HTTP status code and the
JSON error body produced for each error variant. -/
def AppError.intoResponse : AppError → Nat × ErrorResponse
  | .Internal err =>
      (500, { error := "internal_error"
            , message := "An internal error occurred"
            , details := some err })
  | .BadRequest msg =>
      (400, { error := "bad_request", message := msg, details := none })
  | .NotFound msg =>
      (404, { error := "not_found", message := msg, details := none })
  | .Validation msg =>
      (422, { error := "validation_error", message := msg, details := none })
  | .Search msg =>
      (400, { error := "search_error", message := msg, details := none })
  | .Index msg =>
      (500, { error := "index_error", message := msg, details := none })

/-- Predicate: the error is the `Validation` variant (→ 422 validation_error). -/
def AppError.isValidation : AppError → Bool
  | .Validation _ => true
  | _ => false

/-- Outcome of the fallible engine I/O inside one manager call: `none` means
every engine operation succeeded, `some e` means an index I/O operation
(open/create/write/commit/read) failed with message `e`. Failure aborts the
operation without partial commit (spec §4.2: all-or-nothing at the commit
boundary), so the state is returned unchanged. -/
def IoOutcome : Type :=
  Option String

/-- http/routes.rs `index_document` handler: validate title and body
(empty after trim → 422 validation_error, nothing written), then call the
manager; a manager failure is mapped to `AppError::Index`. -/
def index_document_route (m : Manager) (t : String)
    (input : IndexDocumentInput) (docUuid respUuid nowRfc3339 : String)
    (io : IoOutcome) : Manager × Except AppError IndexDocumentResponse :=
  if rustTrim input.title = "" then
    (m, .error (.Validation "Title cannot be empty"))
  else if rustTrim input.body = "" then
    (m, .error (.Validation "Body cannot be empty"))
  else
    match io with
    | some e =>
        (m, .error (.Index ("Failed to index document: " ++ e)))
    | none =>
        let r := mgrIndexDocument m t input docUuid respUuid nowRfc3339
        (r.1, .ok r.2)

/-- http/routes.rs `delete_document` handler: validate the id (empty after
trim → 422, nothing written), then call the manager; a manager failure is
mapped to `AppError::Index`. -/
def delete_document_route (m : Manager) (t : String) (input_id : String)
    (io : IoOutcome) : Manager × Except AppError DeleteDocumentResponse :=
  if rustTrim input_id = "" then
    (m, .error (.Validation "Document ID cannot be empty"))
  else
    match io with
    | some e =>
        (m, .error (.Index ("Failed to delete document: " ++ e)))
    | none =>
        let r := mgrDeleteDocument m t input_id
        (r.1, .ok r.2)

/-- http/routes.rs `search_documents` handler: validate query and limit,
then call the manager; any manager failure (query parse or index I/O) is
mapped to `AppError::Search`. -/
def search_documents_route {σ : Type} (engine : Engine σ) (m : Manager)
    (t : String) (query : SearchQuery) (io : IoOutcome) :
    Manager × Except AppError (SearchResponse σ) :=
  if rustTrim query.query = "" then
    (m, .error (.Validation "Query cannot be empty"))
  else if query.limit = 0 then
    (m, .error (.Validation "Limit must be greater than 0"))
  else if query.limit > 100 then
    (m, .error (.Validation "Limit cannot exceed 100"))
  else
    match io with
    | some e =>
        (m, .error (.Search ("Search failed: " ++ e)))
    | none =>
        let r := mgrSearch engine m t query
        (r.1, .ok r.2)

/-- http/routes.rs `browse_documents` handler: validate the limit, then
call the manager; a manager failure is mapped to `AppError::Internal`. -/
def browse_documents_route (m : Manager) (t : String)
    (query : BrowseDocumentsQuery) (io : IoOutcome) :
    Manager × Except AppError BrowseDocumentsResponse :=
  if query.limit = 0 then
    (m, .error (.Validation "Limit must be greater than 0"))
  else if query.limit > 1000 then
    (m, .error (.Validation "Limit cannot exceed 1000"))
  else
    match io with
    | some e =>
        (m, .error (.Internal e))
    | none =>
        let r := mgrBrowseDocuments m t query
        (r.1, .ok r.2)

/-- http/routes.rs `get_stats` handler: no validation; a manager failure is
mapped to `AppError::Internal`. -/
def get_stats_route (m : Manager) (t : String) (io : IoOutcome) :
    Manager × Except AppError UserIndexStats :=
  match io with
  | some e =>
      (m, .error (.Internal e))
  | none =>
      let r := mgrGetUserStats m t
      (r.1, .ok r.2)

/-- Wire form of search/models.rs `SearchQuery` before serde fills the
defaults: each defaulted field is present or absent. -/
structure SearchQueryWire where
  query : String
  limit : Option Nat
  offset : Option Nat
  filters : Option SearchFilters
deriving Repr, DecidableEq

/-- search/models.rs `default_limit`. -/
def default_limit : Nat :=
  10

/-- search/models.rs `default_browse_limit`. -/
def default_browse_limit : Nat :=
  50

/-- serde deserialization of `SearchQuery`: `limit` defaults via
`default_limit`, `offset` via `usize::default()` = 0, `filters` via
`SearchFilters::default()` = no tags, no source. -/
def deserializeSearchQuery (w : SearchQueryWire) : SearchQuery :=
  { query := w.query
  , limit := w.limit.getD default_limit
  , offset := w.offset.getD 0
  , filters := w.filters.getD { tags := [], source := none } }

/-- Wire form of search/models.rs `BrowseDocumentsQuery` before serde fills
the defaults. -/
structure BrowseDocumentsQueryWire where
  limit : Option Nat
  offset : Option Nat
deriving Repr, DecidableEq

/-- serde deserialization of `BrowseDocumentsQuery`: `limit` defaults via
`default_browse_limit`, `offset` via `usize::default()` = 0. -/
def deserializeBrowseQuery (w : BrowseDocumentsQueryWire) :
    BrowseDocumentsQuery :=
  { limit := w.limit.getD default_browse_limit
  , offset := w.offset.getD 0 }

/-- Number of live documents in `docs` carrying the exact term `d` under
the `id` field. -/
def liveWithId (docs : List TantivyDoc) (d : String) : Nat :=
  docs.countP (fun doc => decide (d ∈ doc.id))

/-- One write operation against a tenant's index, with the values its
nondeterministic mints would take. -/
inductive WriteOp where
  | upsert : IndexDocumentInput → String → String → String → WriteOp
  | delete : String → WriteOp
deriving Repr, DecidableEq

/-- Apply one write operation to an index state (manager semantics). -/
def applyOp (s : IndexState) : WriteOp → IndexState
  | .upsert input docUuid respUuid nowRfc3339 =>
      (index_document s input docUuid respUuid nowRfc3339).1
  | .delete document_id =>
      (delete_document s document_id).1

/-- Apply a sequence of write operations, first one first. -/
def applyOps (s : IndexState) : List WriteOp → IndexState
  | [] => s
  | op :: rest => applyOps (applyOp s op) rest

/-- Freshness of one operation's mint at state `s`: when an upsert carries
no external id, the UUID minted into the stored document must not already
be the id of a live document (UUIDv4 mints are fresh with overwhelming
probability; this is the probabilistic assumption made explicit). -/
def freshAt (s : IndexState) : WriteOp → Bool
  | .upsert input docUuid _ _ =>
      input.id.isSome || decide (liveWithId s.committed docUuid = 0)
  | .delete _ => true

/-- Freshness of every mint along a sequence of operations. -/
def freshAlong (s : IndexState) : List WriteOp → Bool
  | [] => true
  | op :: rest => freshAt s op && freshAlong (applyOp s op) rest

/-- Engine soundness (spec §4.2 black-box contract): every hit returned by
query execution is one of the documents given to it. -/
def EngineSound {σ : Type} (engine : Engine σ) : Prop :=
  ∀ docs q p, p ∈ engine docs q → p.2 ∈ docs

/-- Every live document in the state carries at least one `id` value
(every document written through doc_from_input does). -/
def WellFormedState (s : IndexState) : Prop :=
  ∀ doc ∈ s.committed, doc.id ≠ []

/-- At most one live document per external id (spec §3 invariant 1). -/
def UniqueIds (s : IndexState) : Prop :=
  ∀ d, liveWithId s.committed d ≤ 1

/-- Sample engine used to instantiate black-box hypotheses: matches every
document with a unit score, in index order. -/
def unitEngine : Engine Unit :=
  fun docs _ => docs.map (fun doc => ((), doc))

/-- A retrieved document with no stored values under any field (what the
projection loops call a document whose stored fields are all missing). -/
def docWithNoStoredFields : TantivyDoc :=
  { id := [], title := [], body := [], created_at := [], tags := []
  , source := [] }

/-- Metadata with all optional parts absent (`DocumentMetadata::default()`). -/
def emptyMetadata : DocumentMetadata :=
  { tags := [], source := none, created_at := none, custom := [] }

/-- Filters with all parts absent (`SearchFilters::default()`). -/
def noFilters : SearchFilters :=
  { tags := [], source := none }

/-- Concrete tenant for witnesses (spec §8 scenario S1). -/
def tenantA : String :=
  "11111111-1111-1111-1111-111111111111"

/-- Concrete upsert input carrying no external id. -/
def mintedInput : IndexDocumentInput :=
  { id := none, title := "Rust Programming Language"
  , body := "Rust is a systems programming language that runs blazingly fast"
  , metadata := emptyMetadata }

/-- Concrete write sequence: two upserts of the same external id, one
minted-id upsert, one delete of an absent id. -/
def sampleOps : List WriteOp :=
  [ WriteOp.upsert
      { id := some "doc1", title := "Version 1", body := "a"
      , metadata := emptyMetadata }
      "55555555-5555-5555-5555-555555555555"
      "66666666-6666-6666-6666-666666666666"
      "2026-01-01T00:00:00+00:00"
  , WriteOp.upsert
      { id := some "doc1", title := "Version 2", body := "b"
      , metadata := emptyMetadata }
      "77777777-7777-7777-7777-777777777777"
      "88888888-8888-8888-8888-888888888888"
      "2026-01-02T00:00:00+00:00"
  , WriteOp.upsert mintedInput
      "99999999-9999-9999-9999-999999999999"
      "aaaaaaaa-aaaa-aaaa-aaaa-aaaaaaaaaaaa"
      "2026-01-03T00:00:00+00:00"
  , WriteOp.delete "doc2" ]

/-- Concrete well-formed search query. -/
def sampleQuery : SearchQuery :=
  { query := "Version", limit := 10, offset := 0, filters := noFilters }

/-- Concrete query carrying filters (tags and source set). -/
def filteredQuery : SearchQuery :=
  { query := "rust programming", limit := 10, offset := 0
  , filters := { tags := ["tax"], source := some "web" } }

/-- Same query with the filters absent. -/
def unfilteredQuery : SearchQuery :=
  { query := "rust programming", limit := 10, offset := 0
  , filters := noFilters }

/-- Upsert input whose title is whitespace only. -/
def blankTitleInput : IndexDocumentInput :=
  { id := none, title := "   ", body := "content", metadata := emptyMetadata }

/-- Search query that is whitespace only. -/
def blankQuery : SearchQuery :=
  { query := "  ", limit := 10, offset := 0, filters := noFilters }

/-- Search query whose limit exceeds 100. -/
def overLimitQuery : SearchQuery :=
  { query := "rust", limit := 101, offset := 0, filters := noFilters }

/-- Browse query whose limit is zero. -/
def zeroLimitBrowse : BrowseDocumentsQuery :=
  { limit := 0, offset := 0 }

/-- Valid upsert input (spec §8 scenario S1). -/
def okInput : IndexDocumentInput :=
  { id := some "doc1", title := "Rust Programming Language"
  , body := "Rust is a systems programming language that runs blazingly fast"
  , metadata := emptyMetadata }

/-- Valid search query. -/
def okQuery : SearchQuery :=
  { query := "rust programming", limit := 10, offset := 0
  , filters := noFilters }

/-- Valid browse query. -/
def okBrowse : BrowseDocumentsQuery :=
  { limit := 50, offset := 0 }

/-- Search query exercising pagination: limit 1, offset 1. -/
def pageQuery : SearchQuery :=
  { query := "Version", limit := 1, offset := 1, filters := noFilters }

/-- Browse query exercising pagination: limit 2, offset 0. -/
def pageBrowse : BrowseDocumentsQuery :=
  { limit := 2, offset := 0 }

theorem unitEngine_sound : EngineSound unitEngine := by
  intro docs q p hp
  obtain ⟨doc, hdoc, rfl⟩ := List.mem_map.mp hp
  exact hdoc

theorem liveWithId_append (l₁ l₂ : List TantivyDoc) (d : String) :
    liveWithId (l₁ ++ l₂) d = liveWithId l₁ d + liveWithId l₂ d := by
  simp [liveWithId, List.countP_append]

theorem liveWithId_single (doc : TantivyDoc) (d : String) :
    liveWithId [doc] d = if d ∈ doc.id then 1 else 0 := by
  simp [liveWithId, List.countP_cons]

theorem liveWithId_deleteTerm_self (docs : List TantivyDoc) (d : String) :
    liveWithId (deleteTerm docs d) d = 0 := by
  unfold liveWithId deleteTerm
  rw [List.countP_eq_zero]
  intro a ha
  have h := (List.mem_filter.mp ha).2
  simp at h ⊢
  exact h

theorem liveWithId_deleteTerm_le (docs : List TantivyDoc) (d e : String) :
    liveWithId (deleteTerm docs e) d ≤ liveWithId docs d := by
  unfold liveWithId deleteTerm
  exact (List.filter_sublist _).countP_le _

theorem mem_deleteTerm {docs : List TantivyDoc} {doc : TantivyDoc}
    {d : String} (h : doc ∈ deleteTerm docs d) : doc ∈ docs ∧ d ∉ doc.id := by
  have h' := List.mem_filter.mp h
  refine ⟨h'.1, ?_⟩
  simpa using h'.2

theorem liveWithId_upsert_le {docs : List TantivyDoc} {doc : TantivyDoc}
    (doc_id d : String) (hu : liveWithId docs d ≤ 1)
    (hcase : d ∈ doc.id → d = doc_id ∨ liveWithId docs d = 0) :
    liveWithId (deleteTerm docs doc_id ++ [doc]) d ≤ 1 := by
  rw [liveWithId_append, liveWithId_single]
  by_cases hmem : d ∈ doc.id
  · rcases hcase hmem with h | h
    · have h2 : liveWithId (deleteTerm docs doc_id) d = 0 := by
        rw [h]
        exact liveWithId_deleteTerm_self docs doc_id
      simp [hmem, h2]
    · have h2 : liveWithId (deleteTerm docs doc_id) d = 0 :=
        Nat.le_zero.mp
          (le_trans (liveWithId_deleteTerm_le docs d doc_id) (le_of_eq h))
      simp [hmem, h2]
  · simpa [hmem] using
      le_trans (liveWithId_deleteTerm_le docs d doc_id) hu

theorem uniqueIds_applyOp {s : IndexState} {op : WriteOp}
    (hu : UniqueIds s) (hf : freshAt s op = true) :
    UniqueIds (applyOp s op) := by
  cases op with
  | delete document_id =>
      intro d
      exact le_trans (liveWithId_deleteTerm_le s.committed d document_id)
        (hu d)
  | upsert input docUuid respUuid nowRfc3339 =>
      intro d
      refine liveWithId_upsert_le (input.id.getD respUuid) d (hu d) ?_
      intro hmem
      have hmem' : d = input.id.getD docUuid := by
        simpa [doc_from_input] using hmem
      cases hid : input.id with
      | some i =>
          left
          rw [hid] at hmem'
          simpa using hmem'
      | none =>
          right
          have hfresh : liveWithId s.committed docUuid = 0 := by
            simp [freshAt, hid] at hf
            exact hf
          rw [hid] at hmem'
          simp at hmem'
          rw [hmem']
          exact hfresh

theorem uniqueIds_applyOps {s : IndexState} (ops : List WriteOp)
    (hu : UniqueIds s) (hf : freshAlong s ops = true) :
    UniqueIds (applyOps s ops) := by
  induction ops generalizing s with
  | nil => exact hu
  | cons op rest ih =>
      rw [freshAlong, Bool.and_eq_true] at hf
      exact ih (uniqueIds_applyOp hu hf.1) hf.2

theorem wellFormed_applyOp {s : IndexState} (op : WriteOp)
    (hw : WellFormedState s) : WellFormedState (applyOp s op) := by
  cases op with
  | delete document_id =>
      intro doc hdoc
      exact hw doc (mem_deleteTerm hdoc).1
  | upsert input docUuid respUuid nowRfc3339 =>
      intro doc hdoc
      have hdoc' : doc ∈ deleteTerm s.committed (input.id.getD respUuid)
          ++ [doc_from_input input docUuid nowRfc3339] := hdoc
      rcases List.mem_append.mp hdoc' with h | h
      · exact hw doc (mem_deleteTerm h).1
      · have : doc = doc_from_input input docUuid nowRfc3339 := by
          simpa using h
        subst this
        simp [doc_from_input]

theorem wellFormed_applyOps {s : IndexState} (ops : List WriteOp)
    (hw : WellFormedState s) : WellFormedState (applyOps s ops) := by
  induction ops generalizing s with
  | nil => exact hw
  | cons op rest ih => exact ih (wellFormed_applyOp op hw)

theorem wellFormed_empty : WellFormedState emptyIndexState := by
  intro doc hdoc
  simp [emptyIndexState] at hdoc

theorem search_result_mem {σ : Type} (engine : Engine σ) (s : IndexState)
    (q : SearchQuery) :
    ∀ r ∈ (search engine s q).2.results,
      ∃ p ∈ engine s.committed q.query, r = projectSearchHit p.1 p.2 := by
  intro r hr
  obtain ⟨p, hp, rfl⟩ := List.mem_map.mp hr
  refine ⟨p, ?_, rfl⟩
  exact List.take_subset _ _ (List.drop_subset _ _ (List.take_subset _ _ hp))

theorem uniqueIds_empty : UniqueIds emptyIndexState := by
  intro d
  simp [UniqueIds, liveWithId, emptyIndexState]

theorem deleteTerm_eq_self {docs : List TantivyDoc} {d : String}
    (h : liveWithId docs d = 0) : deleteTerm docs d = docs := by
  unfold deleteTerm
  rw [List.filter_eq_self]
  intro a ha
  have h' := List.countP_eq_zero.mp h a ha
  simpa using h'

theorem search_after_delete_id {σ : Type} (engine : Engine σ)
    (hs : EngineSound engine) {s : IndexState} (hw : WellFormedState s)
    (D : String) (q : SearchQuery) :
    ∀ r ∈ (search engine (delete_document s D).1 q).2.results, r.id ≠ D := by
  intro r hr
  obtain ⟨p, hp, rfl⟩ := search_result_mem engine _ q r hr
  have hdoc : p.2 ∈ (delete_document s D).1.committed := hs _ _ _ hp
  have hmem := mem_deleteTerm hdoc
  have hne : p.2.id ≠ [] := hw _ hmem.1
  cases hid : p.2.id with
  | nil => exact absurd hid hne
  | cons x xs =>
      have hx : x ∈ p.2.id := hid ▸ List.mem_cons_self x xs
      have hr_id : (projectSearchHit p.1 p.2).id = x := by
        simp [projectSearchHit, hid]
      rw [hr_id]
      intro hxD
      exact hmem.2 (hxD ▸ hx)

/-- C1: evaluation of the code at the failing input. An upsert whose input
carries no `id` mints two independent UUIDs: `index_document` answers with
the UUID minted at index_manager.rs:132 while the stored document's `id`
field holds the distinct UUID minted by `doc_from_input` at schema.rs:80,
so the success response's id is not the id stored in the indexed document —
contradicting the spec's ID-stability invariant, which the code's own
delete-by-returned-id upsert logic also depends on. -/
theorem c1_minted_response_id_differs_from_stored_id :
    (index_document emptyIndexState mintedInput
        "99999999-9999-9999-9999-999999999999"
        "aaaaaaaa-aaaa-aaaa-aaaa-aaaaaaaaaaaa"
        "2026-01-03T00:00:00+00:00").2.id
      = "aaaaaaaa-aaaa-aaaa-aaaa-aaaaaaaaaaaa" ∧
    (index_document emptyIndexState mintedInput
        "99999999-9999-9999-9999-999999999999"
        "aaaaaaaa-aaaa-aaaa-aaaa-aaaaaaaaaaaa"
        "2026-01-03T00:00:00+00:00").1.committed
      = [doc_from_input mintedInput
          "99999999-9999-9999-9999-999999999999"
          "2026-01-03T00:00:00+00:00"] ∧
    (doc_from_input mintedInput
        "99999999-9999-9999-9999-999999999999"
        "2026-01-03T00:00:00+00:00").id
      = ["99999999-9999-9999-9999-999999999999"] ∧
    ("aaaaaaaa-aaaa-aaaa-aaaa-aaaaaaaaaaaa" : String)
      ≠ "99999999-9999-9999-9999-999999999999" :=
  ⟨rfl, rfl, rfl, by decide⟩

/-- C2: starting from a fresh tenant index, after any sequence of
successful upserts and deletes whose minted UUIDs are fresh, at most one
live document with external id D exists (upsert being delete-by-exact-term
on `id` then add inside a single commit), and delete(T, D) followed by
search(T, D) yields zero results with id D, for any sound black-box engine. -/
theorem c2_at_most_one_live_doc_per_id {σ : Type} (engine : Engine σ)
    (hs : EngineSound engine) (ops : List WriteOp)
    (hf : freshAlong emptyIndexState ops = true) (D : String)
    (q : SearchQuery) :
    liveWithId (applyOps emptyIndexState ops).committed D ≤ 1 ∧
    liveWithId
      (delete_document (applyOps emptyIndexState ops) D).1.committed D = 0 ∧
    ∀ r ∈ (search engine
        (delete_document (applyOps emptyIndexState ops) D).1 q).2.results,
      r.id ≠ D := by
  have hu : UniqueIds (applyOps emptyIndexState ops) :=
    uniqueIds_applyOps ops uniqueIds_empty hf
  have hw : WellFormedState (applyOps emptyIndexState ops) :=
    wellFormed_applyOps ops wellFormed_empty
  exact ⟨hu D, liveWithId_deleteTerm_self _ D,
    search_after_delete_id engine hs hw D q⟩

/-- C2 witness: the concrete sequence upsert doc1 (v1), upsert doc1 (v2),
minted upsert, delete doc2 — all mints fresh — leaves at most one live doc1,
and deleting doc1 then searching finds no result with id doc1. -/
theorem c2_at_most_one_live_doc_per_id_witness :
    EngineSound unitEngine ∧
    freshAlong emptyIndexState sampleOps = true ∧
    (liveWithId (applyOps emptyIndexState sampleOps).committed "doc1" ≤ 1 ∧
     liveWithId
       (delete_document (applyOps emptyIndexState sampleOps) "doc1").1.committed
         "doc1" = 0 ∧
     ∀ r ∈ (search unitEngine
         (delete_document (applyOps emptyIndexState sampleOps) "doc1").1
         sampleQuery).2.results,
       r.id ≠ "doc1") :=
  ⟨unitEngine_sound, by decide,
   c2_at_most_one_live_doc_per_id unitEngine unitEngine_sound sampleOps
     (by decide) "doc1" sampleQuery⟩

/-- C3: every read path (search, browse, stats) reloads the reader before
obtaining a searcher, so the searcher snapshot equals the tenant's
committed documents, and the document stored by an upsert that returned
success is among them — visible to every subsequent read on that tenant. -/
theorem c3_read_after_write_visibility {σ : Type} (engine : Engine σ)
    (m : Manager) (t : String) (input : IndexDocumentInput)
    (docUuid respUuid nowRfc3339 : String) (q : SearchQuery)
    (bq : BrowseDocumentsQuery) :
    (search engine ((mgrIndexDocument m t input docUuid respUuid nowRfc3339).1 t)
        q).1.readerDocs
      = ((mgrIndexDocument m t input docUuid respUuid nowRfc3339).1 t).committed ∧
    (browse_documents
        ((mgrIndexDocument m t input docUuid respUuid nowRfc3339).1 t)
        bq).1.readerDocs
      = ((mgrIndexDocument m t input docUuid respUuid nowRfc3339).1 t).committed ∧
    (get_user_stats
        ((mgrIndexDocument m t input docUuid respUuid nowRfc3339).1 t)
        t).1.readerDocs
      = ((mgrIndexDocument m t input docUuid respUuid nowRfc3339).1 t).committed ∧
    doc_from_input input docUuid nowRfc3339
      ∈ ((mgrIndexDocument m t input docUuid respUuid nowRfc3339).1 t).committed ∧
    (get_user_stats
        ((mgrIndexDocument m t input docUuid respUuid nowRfc3339).1 t)
        t).2.num_documents
      = ((mgrIndexDocument m t input docUuid respUuid nowRfc3339).1 t).committed.length := by
  have ht : (mgrIndexDocument m t input docUuid respUuid nowRfc3339).1 t
      = (index_document (m t) input docUuid respUuid nowRfc3339).1 := by
    simp [mgrIndexDocument]
  refine ⟨rfl, rfl, rfl, ?_, rfl⟩
  rw [ht]
  show doc_from_input input docUuid nowRfc3339
    ∈ deleteTerm (m t).committed (input.id.getD respUuid)
        ++ [doc_from_input input docUuid nowRfc3339]
  exact List.mem_append_right _ (List.mem_singleton_self _)

/-- C4: an upsert whose title or body is empty after trimming, a search
whose query is empty after trimming, a search limit outside [1,100], a
browse limit outside [1,1000], and a delete whose id is empty after
trimming all fail with a Validation error — surfaced as HTTP 422
validation_error — and leave the manager (hence every index) untouched. -/
theorem c4_validation_rejects {σ : Type} (engine : Engine σ) (m : Manager)
    (t : String) (input : IndexDocumentInput)
    (docUuid respUuid nowRfc3339 : String) (io : IoOutcome)
    (q : SearchQuery) (bq : BrowseDocumentsQuery) (D : String) :
    (rustTrim input.title = "" ∨ rustTrim input.body = "" →
      ∃ msg, index_document_route m t input docUuid respUuid nowRfc3339 io
          = (m, .error (.Validation msg)) ∧
        (AppError.Validation msg).intoResponse.1 = 422 ∧
        (AppError.Validation msg).intoResponse.2.error = "validation_error") ∧
    (rustTrim q.query = "" →
      ∃ msg, search_documents_route engine m t q io
          = (m, .error (.Validation msg)) ∧
        (AppError.Validation msg).intoResponse.1 = 422 ∧
        (AppError.Validation msg).intoResponse.2.error = "validation_error") ∧
    (q.limit = 0 ∨ q.limit > 100 →
      ∃ msg, search_documents_route engine m t q io
          = (m, .error (.Validation msg)) ∧
        (AppError.Validation msg).intoResponse.1 = 422 ∧
        (AppError.Validation msg).intoResponse.2.error = "validation_error") ∧
    (bq.limit = 0 ∨ bq.limit > 1000 →
      ∃ msg, browse_documents_route m t bq io
          = (m, .error (.Validation msg)) ∧
        (AppError.Validation msg).intoResponse.1 = 422 ∧
        (AppError.Validation msg).intoResponse.2.error = "validation_error") ∧
    (rustTrim D = "" →
      ∃ msg, delete_document_route m t D io
          = (m, .error (.Validation msg)) ∧
        (AppError.Validation msg).intoResponse.1 = 422 ∧
        (AppError.Validation msg).intoResponse.2.error = "validation_error") := by
  refine ⟨?_, ?_, ?_, ?_, ?_⟩
  · intro h
    rcases h with h | h
    · exact ⟨"Title cannot be empty",
        by simp [index_document_route, h], rfl, rfl⟩
    · by_cases ht : rustTrim input.title = ""
      · exact ⟨"Title cannot be empty",
          by simp [index_document_route, ht], rfl, rfl⟩
      · exact ⟨"Body cannot be empty",
          by simp [index_document_route, ht, h], rfl, rfl⟩
  · intro h
    exact ⟨"Query cannot be empty",
      by simp [search_documents_route, h], rfl, rfl⟩
  · intro h
    by_cases hq : rustTrim q.query = ""
    · exact ⟨"Query cannot be empty",
        by simp [search_documents_route, hq], rfl, rfl⟩
    · rcases h with h | h
      · exact ⟨"Limit must be greater than 0",
          by simp [search_documents_route, hq, h], rfl, rfl⟩
      · have h0 : ¬ q.limit = 0 := by omega
        exact ⟨"Limit cannot exceed 100",
          by simp [search_documents_route, hq, h0, h], rfl, rfl⟩
  · intro h
    rcases h with h | h
    · exact ⟨"Limit must be greater than 0",
        by simp [browse_documents_route, h], rfl, rfl⟩
    · have h0 : ¬ bq.limit = 0 := by omega
      exact ⟨"Limit cannot exceed 1000",
        by simp [browse_documents_route, h0, h], rfl, rfl⟩
  · intro h
    exact ⟨"Document ID cannot be empty",
      by simp [delete_document_route, h], rfl, rfl⟩

/-- C4 witness: blank title upsert, blank query search, limit-101 search,
limit-0 browse, and blank-id delete all yield a 422 validation_error with
the manager unchanged. -/
theorem c4_validation_rejects_witness :
    rustTrim blankTitleInput.title = "" ∧
    rustTrim blankQuery.query = "" ∧
    overLimitQuery.limit > 100 ∧
    zeroLimitBrowse.limit = 0 ∧
    rustTrim "   " = "" ∧
    (∃ msg, index_document_route emptyManager tenantA blankTitleInput
        "u" "v" "now" none = (emptyManager, .error (.Validation msg)) ∧
      (AppError.Validation msg).intoResponse.1 = 422 ∧
      (AppError.Validation msg).intoResponse.2.error = "validation_error") ∧
    (∃ msg, search_documents_route unitEngine emptyManager tenantA blankQuery
        none = (emptyManager, .error (.Validation msg)) ∧
      (AppError.Validation msg).intoResponse.1 = 422 ∧
      (AppError.Validation msg).intoResponse.2.error = "validation_error") ∧
    (∃ msg, search_documents_route unitEngine emptyManager tenantA
        overLimitQuery none = (emptyManager, .error (.Validation msg)) ∧
      (AppError.Validation msg).intoResponse.1 = 422 ∧
      (AppError.Validation msg).intoResponse.2.error = "validation_error") ∧
    (∃ msg, browse_documents_route emptyManager tenantA zeroLimitBrowse
        none = (emptyManager, .error (.Validation msg)) ∧
      (AppError.Validation msg).intoResponse.1 = 422 ∧
      (AppError.Validation msg).intoResponse.2.error = "validation_error") ∧
    (∃ msg, delete_document_route emptyManager tenantA "   "
        none = (emptyManager, .error (.Validation msg)) ∧
      (AppError.Validation msg).intoResponse.1 = 422 ∧
      (AppError.Validation msg).intoResponse.2.error = "validation_error") :=
  ⟨by decide, by decide, by decide, by decide, by decide,
   (c4_validation_rejects unitEngine emptyManager tenantA blankTitleInput
      "u" "v" "now" none blankQuery zeroLimitBrowse "   ").1
     (Or.inl (by decide)),
   (c4_validation_rejects unitEngine emptyManager tenantA blankTitleInput
      "u" "v" "now" none blankQuery zeroLimitBrowse "   ").2.1 (by decide),
   (c4_validation_rejects unitEngine emptyManager tenantA blankTitleInput
      "u" "v" "now" none overLimitQuery zeroLimitBrowse "   ").2.2.1
     (Or.inr (by decide)),
   (c4_validation_rejects unitEngine emptyManager tenantA blankTitleInput
      "u" "v" "now" none blankQuery zeroLimitBrowse "   ").2.2.2.1
     (Or.inl (by decide)),
   (c4_validation_rejects unitEngine emptyManager tenantA blankTitleInput
      "u" "v" "now" none blankQuery zeroLimitBrowse "   ").2.2.2.2
     (by decide)⟩

/-- C5: for every search and browse call whose limit is within the
route-enforced cap, the pipeline collects the top (limit + offset) hits,
skips the first offset, returns at most limit results, and sets `total` to
the number of results actually returned — the window size, not the full
match cardinality. -/
theorem c5_pagination_window {σ : Type} (engine : Engine σ) (s : IndexState)
    (q : SearchQuery) (bq : BrowseDocumentsQuery)
    (hq : q.limit ≤ 100) (hbq : bq.limit ≤ 1000) :
    (search engine s q).2.results
      = ((((engine s.committed q.query).take (q.limit + q.offset)).drop
            q.offset).take q.limit).map (fun h => projectSearchHit h.1 h.2) ∧
    (search engine s q).2.results.length ≤ q.limit ∧
    (search engine s q).2.total = (search engine s q).2.results.length ∧
    (browse_documents s bq).2.documents
      = (((s.committed.take (bq.limit + bq.offset)).drop bq.offset).take
          bq.limit).map projectBrowseHit ∧
    (browse_documents s bq).2.documents.length ≤ bq.limit ∧
    (browse_documents s bq).2.total
      = (browse_documents s bq).2.documents.length := by
  have hmin : min q.limit 100 = q.limit := Nat.min_eq_left hq
  have hmin' : min bq.limit 1000 = bq.limit := Nat.min_eq_left hbq
  refine ⟨?_, ?_, rfl, ?_, ?_, rfl⟩
  · show (((((engine s.committed q.query).take (min q.limit 100 + q.offset)).drop
        q.offset).take (min q.limit 100)).map (fun h => projectSearchHit h.1 h.2))
      = _
    rw [hmin]
  · show (((((engine s.committed q.query).take (min q.limit 100 + q.offset)).drop
        q.offset).take (min q.limit 100)).map
          (fun h => projectSearchHit h.1 h.2)).length ≤ q.limit
    rw [hmin, List.length_map, List.length_take]
    exact Nat.min_le_left _ _
  · show ((((s.committed.take (min bq.limit 1000 + bq.offset)).drop
        bq.offset).take (min bq.limit 1000)).map projectBrowseHit) = _
    rw [hmin']
  · show ((((s.committed.take (min bq.limit 1000 + bq.offset)).drop
        bq.offset).take (min bq.limit 1000)).map projectBrowseHit).length
      ≤ bq.limit
    rw [hmin', List.length_map, List.length_take]
    exact Nat.min_le_left _ _

/-- C5 witness: the pagination window at limit 1, offset 1 (search) and
limit 2, offset 0 (browse) on the state left by the sample writes. -/
theorem c5_pagination_window_witness :
    pageQuery.limit ≤ 100 ∧ pageBrowse.limit ≤ 1000 ∧
    ((search unitEngine (applyOps emptyIndexState sampleOps) pageQuery).2.results
        = ((((unitEngine (applyOps emptyIndexState sampleOps).committed
              pageQuery.query).take (pageQuery.limit + pageQuery.offset)).drop
              pageQuery.offset).take pageQuery.limit).map
            (fun h => projectSearchHit h.1 h.2) ∧
      (search unitEngine (applyOps emptyIndexState sampleOps)
          pageQuery).2.results.length ≤ pageQuery.limit ∧
      (search unitEngine (applyOps emptyIndexState sampleOps) pageQuery).2.total
        = (search unitEngine (applyOps emptyIndexState sampleOps)
            pageQuery).2.results.length ∧
      (browse_documents (applyOps emptyIndexState sampleOps)
          pageBrowse).2.documents
        = ((((applyOps emptyIndexState sampleOps).committed.take
              (pageBrowse.limit + pageBrowse.offset)).drop
              pageBrowse.offset).take pageBrowse.limit).map projectBrowseHit ∧
      (browse_documents (applyOps emptyIndexState sampleOps)
          pageBrowse).2.documents.length ≤ pageBrowse.limit ∧
      (browse_documents (applyOps emptyIndexState sampleOps) pageBrowse).2.total
        = (browse_documents (applyOps emptyIndexState sampleOps)
            pageBrowse).2.documents.length) :=
  ⟨by decide, by decide,
   c5_pagination_window unitEngine (applyOps emptyIndexState sampleOps)
     pageQuery pageBrowse (by decide) (by decide)⟩

/-- C6: two search calls on the same tenant and index state whose inputs
differ only in filters.tags and/or filters.source produce identical
responses and identical resulting states: the filters are accepted on the
wire but never applied. -/
theorem c6_filters_not_applied {σ : Type} (engine : Engine σ) (m : Manager)
    (t : String) (q1 q2 : SearchQuery) (hq : q1.query = q2.query)
    (hl : q1.limit = q2.limit) (ho : q1.offset = q2.offset) :
    mgrSearch engine m t q1 = mgrSearch engine m t q2 := by
  obtain ⟨a1, b1, c1, f1⟩ := q1
  obtain ⟨a2, b2, c2, f2⟩ := q2
  cases hq
  cases hl
  cases ho
  rfl

/-- C6 witness: a query with tag and source filters set and the same query
with no filters return the same search response. -/
theorem c6_filters_not_applied_witness :
    filteredQuery.filters ≠ unfilteredQuery.filters ∧
    filteredQuery.query = unfilteredQuery.query ∧
    filteredQuery.limit = unfilteredQuery.limit ∧
    filteredQuery.offset = unfilteredQuery.offset ∧
    mgrSearch unitEngine emptyManager tenantA filteredQuery
      = mgrSearch unitEngine emptyManager tenantA unfilteredQuery :=
  ⟨by decide, rfl, rfl, rfl,
   c6_filters_not_applied unitEngine emptyManager tenantA filteredQuery
     unfilteredQuery rfl rfl rfl⟩

/-- C7 counterexample: a retrieved document with no stored `id` value is
projected with id "unknown" (index_manager.rs:241 and 347), not the empty
string the claim states, in both the search and the browse shaping. -/
theorem c7_counterexample_missing_id_is_unknown :
    (projectSearchHit () docWithNoStoredFields).id = "unknown" ∧
    (projectBrowseHit docWithNoStoredFields).id = "unknown" ∧
    (projectSearchHit () docWithNoStoredFields).id ≠ "" :=
  ⟨rfl, rfl, by decide⟩

/-- C7 amended: in the search and browse result shaping, a missing stored
`title` or `body` defaults to the empty string, a missing `created_at` to
none, and a missing `id` to the string "unknown". -/
theorem c7_projection_defaults {σ : Type} (score : σ) (doc : TantivyDoc) :
    (doc.title = [] →
      (projectSearchHit score doc).title = "" ∧
      (projectBrowseHit doc).title = "") ∧
    (doc.body = [] →
      (projectSearchHit score doc).body = "" ∧
      (projectBrowseHit doc).body = "") ∧
    (doc.created_at = [] →
      (projectSearchHit score doc).created_at = none ∧
      (projectBrowseHit doc).created_at = none) ∧
    (doc.id = [] →
      (projectSearchHit score doc).id = "unknown" ∧
      (projectBrowseHit doc).id = "unknown") := by
  refine ⟨fun h => ?_, fun h => ?_, fun h => ?_, fun h => ?_⟩ <;>
    simp [projectSearchHit, projectBrowseHit, h]

/-- C7 witness: the all-fields-missing document projects to "", "", none
and "unknown" in both shapings. -/
theorem c7_projection_defaults_witness :
    docWithNoStoredFields.title = [] ∧
    docWithNoStoredFields.body = [] ∧
    docWithNoStoredFields.created_at = [] ∧
    docWithNoStoredFields.id = [] ∧
    ((projectSearchHit () docWithNoStoredFields).title = "" ∧
      (projectBrowseHit docWithNoStoredFields).title = "") ∧
    ((projectSearchHit () docWithNoStoredFields).body = "" ∧
      (projectBrowseHit docWithNoStoredFields).body = "") ∧
    ((projectSearchHit () docWithNoStoredFields).created_at = none ∧
      (projectBrowseHit docWithNoStoredFields).created_at = none) ∧
    ((projectSearchHit () docWithNoStoredFields).id = "unknown" ∧
      (projectBrowseHit docWithNoStoredFields).id = "unknown") :=
  ⟨rfl, rfl, rfl, rfl,
   (c7_projection_defaults () docWithNoStoredFields).1 rfl,
   (c7_projection_defaults () docWithNoStoredFields).2.1 rfl,
   (c7_projection_defaults () docWithNoStoredFields).2.2.1 rfl,
   (c7_projection_defaults () docWithNoStoredFields).2.2.2 rfl⟩

/-- C8: for every tenant and every non-empty id D, delete succeeds with
status "success" and echoes D even when no live document with id D exists;
the commit is still issued (commit count rises by one) and the committed
documents are untouched. -/
theorem c8_delete_nonexistent_succeeds (m : Manager) (t D : String)
    (hD : D ≠ "") (habsent : liveWithId (m t).committed D = 0) :
    (mgrDeleteDocument m t D).2.status = "success" ∧
    (mgrDeleteDocument m t D).2.id = D ∧
    ((mgrDeleteDocument m t D).1 t).commits = (m t).commits + 1 ∧
    ((mgrDeleteDocument m t D).1 t).committed = (m t).committed := by
  have ht : (mgrDeleteDocument m t D).1 t = (delete_document (m t) D).1 := by
    simp [mgrDeleteDocument]
  refine ⟨rfl, rfl, ?_, ?_⟩
  · rw [ht]
    rfl
  · rw [ht]
    show deleteTerm (m t).committed D = (m t).committed
    exact deleteTerm_eq_self habsent

/-- C8 witness: deleting the absent id "ghost" on a fresh tenant succeeds,
echoes the id, and still issues a commit. -/
theorem c8_delete_nonexistent_succeeds_witness :
    ("ghost" : String) ≠ "" ∧
    liveWithId (emptyManager tenantA).committed "ghost" = 0 ∧
    ((mgrDeleteDocument emptyManager tenantA "ghost").2.status = "success" ∧
     (mgrDeleteDocument emptyManager tenantA "ghost").2.id = "ghost" ∧
     ((mgrDeleteDocument emptyManager tenantA "ghost").1 tenantA).commits
       = (emptyManager tenantA).commits + 1 ∧
     ((mgrDeleteDocument emptyManager tenantA "ghost").1 tenantA).committed
       = (emptyManager tenantA).committed) :=
  ⟨by decide, by decide,
   c8_delete_nonexistent_succeeds emptyManager tenantA "ghost" (by decide)
     (by decide)⟩

/-- C9 counterexample: an index I/O failure inside browse is mapped to
AppError::Internal (routes.rs:208-215), so the client sees 500
internal_error, not index_error as the claim states for every operation. -/
theorem c9_counterexample_browse_internal_error :
    (browse_documents_route emptyManager tenantA okBrowse
        (some "commit failed")).2
      = .error (.Internal "commit failed") ∧
    (AppError.Internal "commit failed").intoResponse.1 = 500 ∧
    (AppError.Internal "commit failed").intoResponse.2.error
      = "internal_error" ∧
    (AppError.Internal "commit failed").intoResponse.2.error
      ≠ "index_error" := by
  refine ⟨?_, rfl, rfl, by decide⟩
  simp [browse_documents_route, okBrowse]

/-- C9 amended: upsert and delete map index I/O failures to HTTP 500
index_error; search maps its failures (parse or I/O) to HTTP 400
search_error; browse and stats map theirs to HTTP 500 internal_error with
the cause in details. -/
theorem c9_failure_mapping {σ : Type} (engine : Engine σ) (m : Manager)
    (t e : String) (input : IndexDocumentInput)
    (docUuid respUuid nowRfc3339 : String) (q : SearchQuery)
    (bq : BrowseDocumentsQuery) (D : String)
    (htitle : rustTrim input.title ≠ "") (hbody : rustTrim input.body ≠ "")
    (hq : rustTrim q.query ≠ "") (hq0 : q.limit ≠ 0)
    (hq100 : ¬ q.limit > 100) (hb0 : bq.limit ≠ 0)
    (hb1000 : ¬ bq.limit > 1000) (hD : rustTrim D ≠ "") :
    index_document_route m t input docUuid respUuid nowRfc3339 (some e)
      = (m, .error (.Index ("Failed to index document: " ++ e))) ∧
    delete_document_route m t D (some e)
      = (m, .error (.Index ("Failed to delete document: " ++ e))) ∧
    search_documents_route engine m t q (some e)
      = (m, .error (.Search ("Search failed: " ++ e))) ∧
    browse_documents_route m t bq (some e) = (m, .error (.Internal e)) ∧
    get_stats_route m t (some e) = (m, .error (.Internal e)) ∧
    (AppError.Index ("Failed to index document: " ++ e)).intoResponse.1
      = 500 ∧
    (AppError.Index ("Failed to index document: " ++ e)).intoResponse.2.error
      = "index_error" ∧
    (AppError.Search ("Search failed: " ++ e)).intoResponse.1 = 400 ∧
    (AppError.Search ("Search failed: " ++ e)).intoResponse.2.error
      = "search_error" ∧
    (AppError.Internal e).intoResponse.1 = 500 ∧
    (AppError.Internal e).intoResponse.2.error = "internal_error" ∧
    (AppError.Internal e).intoResponse.2.details = some e := by
  refine ⟨?_, ?_, ?_, ?_, rfl, rfl, rfl, rfl, rfl, rfl, rfl, rfl⟩
  · simp [index_document_route, htitle, hbody]
  · simp [delete_document_route, hD]
  · simp [search_documents_route, hq, hq0, hq100]
  · simp [browse_documents_route, hb0, hb1000]

/-- C9 witness: with valid inputs and a failing engine, the five routes
map the failure to index_error, index_error, search_error, internal_error
and internal_error respectively. -/
theorem c9_failure_mapping_witness :
    rustTrim okInput.title ≠ "" ∧ rustTrim okInput.body ≠ "" ∧
    rustTrim okQuery.query ≠ "" ∧ okQuery.limit ≠ 0 ∧
    ¬ okQuery.limit > 100 ∧ okBrowse.limit ≠ 0 ∧ ¬ okBrowse.limit > 1000 ∧
    rustTrim "doc1" ≠ "" ∧
    (index_document_route emptyManager tenantA okInput "u" "v" "now"
        (some "disk full")
      = (emptyManager,
         .error (.Index ("Failed to index document: " ++ "disk full"))) ∧
     delete_document_route emptyManager tenantA "doc1" (some "disk full")
      = (emptyManager,
         .error (.Index ("Failed to delete document: " ++ "disk full"))) ∧
     search_documents_route unitEngine emptyManager tenantA okQuery
        (some "disk full")
      = (emptyManager, .error (.Search ("Search failed: " ++ "disk full"))) ∧
     browse_documents_route emptyManager tenantA okBrowse (some "disk full")
      = (emptyManager, .error (.Internal "disk full")) ∧
     get_stats_route emptyManager tenantA (some "disk full")
      = (emptyManager, .error (.Internal "disk full")) ∧
     (AppError.Index ("Failed to index document: " ++ "disk full")).intoResponse.1
      = 500 ∧
     (AppError.Index
        ("Failed to index document: " ++ "disk full")).intoResponse.2.error
      = "index_error" ∧
     (AppError.Search ("Search failed: " ++ "disk full")).intoResponse.1
      = 400 ∧
     (AppError.Search ("Search failed: " ++ "disk full")).intoResponse.2.error
      = "search_error" ∧
     (AppError.Internal "disk full").intoResponse.1 = 500 ∧
     (AppError.Internal "disk full").intoResponse.2.error
      = "internal_error" ∧
     (AppError.Internal "disk full").intoResponse.2.details
      = some "disk full") :=
  ⟨by decide, by decide, by decide, by decide, by decide, by decide,
   by decide, by decide,
   c9_failure_mapping unitEngine emptyManager tenantA "disk full" okInput
     "u" "v" "now" okQuery okBrowse "doc1" (by decide) (by decide)
     (by decide) (by decide) (by decide) (by decide) (by decide)
     (by decide)⟩

/-- C10: when the JSON body omits them, search deserializes limit to 10,
browse deserializes limit to 50, and both deserialize offset to 0 and
filters to the empty default. -/
theorem c10_serde_defaults (qs : String) :
    deserializeSearchQuery
        { query := qs, limit := none, offset := none, filters := none }
      = { query := qs, limit := 10, offset := 0
        , filters := { tags := [], source := none } } ∧
    deserializeBrowseQuery { limit := none, offset := none }
      = { limit := 50, offset := 0 } :=
  ⟨rfl, rfl⟩

end Tax2go
